import Mathlib

/-!
Shallow embedding of the NovaZone educational-platform backend
(`src/backend/server.py`), covering the data model, the identity layer and
the route handlers that the verified properties below are about.

Conventions of the embedding:
* MongoDB collections become Lean lists held in a `DBState` record; the
  operations used by the source (`find_one`, `find(...).to_list(n)`,
  `update_one`, `insert_one`, `$addToSet`, `$set`, `sort`) become the list
  functions `List.find?`, `filter`/`take`, `updateFirst`, append, `addToSet`,
  field updates and `List.insertionSort`.
* Python floats become `ℚ`; timestamps become `Nat`.
* Freshly generated UUIDs and `datetime.utcnow()` readings are passed in as
  explicit arguments.
* A handler that can raise returns `Except HErr output × DBState`, where the
  returned state is the database after the request (unchanged when the
  handler raises before writing, exactly as in the source, which raises
  before any write on its error paths).
* Python runtime errors that the source can hit (`ZeroDivisionError` from
  `/`, `AttributeError` from a missing module attribute) are modelled as
  explicit `HErr` values mapping to HTTP 500, faithful to FastAPI's
  behaviour for uncaught exceptions.
-/

namespace NZ

/-- Exceptions a route handler can finish with, together with the HTTP status
each one produces (FastAPI `HTTPException` statuses for the first four,
500 for an uncaught Python exception). -/
inductive HErr where
  | conflict (detail : String)
  | unauthenticated (detail : String)
  | forbidden (detail : String)
  | notFound (detail : String)
  | attributeError (msg : String)
  | typeError (msg : String)
  | zeroDivisionError
deriving DecidableEq, Repr

/-- HTTP status code produced by each handler exception. -/
def HErr.status : HErr → Nat
  | .conflict _ => 400
  | .unauthenticated _ => 401
  | .forbidden _ => 403
  | .notFound _ => 404
  | .attributeError _ => 500
  | .typeError _ => 500
  | .zeroDivisionError => 500

/-- Stored user document: the `User` pydantic model plus the
`hashed_password` key that `register` adds before `insert_one`. -/
structure UserDoc where
  id : String
  email : String
  full_name : String
  role : String
  created_at : Nat
  profile_image : Option String := none
  bio : Option String := none
  hashed_password : String
deriving DecidableEq, Repr

/-- `UserResponse` pydantic model: the public view of a user.  It has no
password-hash field at all. -/
structure UserResponse where
  id : String
  email : String
  full_name : String
  role : String
  profile_image : Option String := none
  bio : Option String := none
deriving DecidableEq, Repr

/-- `UserCreate` request body for `POST /api/auth/register`. -/
structure UserCreate where
  email : String
  password : String
  full_name : String
  role : String
deriving DecidableEq, Repr

/-- `Course` pydantic model / stored course document. -/
structure Course where
  id : String
  title : String
  description : String
  teacher_id : String
  teacher_name : String
  subject : String
  difficulty_level : String
  duration_hours : Nat
  created_at : Nat
  image : Option String := none
  enrolled_students : List String := []
  rating : ℚ := 9 / 2
  total_lessons : Nat := 0
deriving DecidableEq, Repr

/-- `Teacher` pydantic model / stored teacher document. -/
structure Teacher where
  id : String
  user_id : String
  full_name : String
  email : String
  subjects : List String
  experience_years : Nat
  rating : ℚ := 9 / 2
  total_students : Nat := 0
  bio : Option String := none
  profile_image : Option String := none
  hourly_rate : Option ℚ := none
deriving DecidableEq, Repr

/-- `TeacherCreate` request body for `PUT /api/teachers/profile`.  In the
source the optional fields default to `None` when omitted from the request,
which is modelled by `none`. -/
structure TeacherCreate where
  subjects : List String
  experience_years : Nat
  bio : Option String := none
  hourly_rate : Option ℚ := none
deriving DecidableEq, Repr

/-- `Progress` pydantic model / stored progress document. -/
structure Progress where
  id : String
  student_id : String
  course_id : String
  course_title : String
  completion_percentage : ℚ := 0
  last_accessed : Nat
  time_spent_hours : ℚ := 0
  quiz_scores : List ℚ := []
deriving DecidableEq, Repr

/-- `QuizQuestion` pydantic model.  `correct_answer` is the index of the
correct option; answers are compared to it with Python `==` on ints. -/
structure QuizQuestion where
  id : String
  question : String
  options : List String
  correct_answer : Int
  explanation : Option String := none
deriving DecidableEq, Repr

/-- `Quiz` pydantic model / stored quiz document. -/
structure Quiz where
  id : String
  course_id : String
  title : String
  questions : List QuizQuestion
  created_at : Nat
deriving DecidableEq, Repr

/-- `QuizSubmission` pydantic model: request body of `POST /api/quiz/submit`
and the stored submission document (the handler overwrites `score` and
`student_id` before persisting). -/
structure QuizSubmission where
  quiz_id : String
  student_id : String
  answers : List Int
  score : ℚ
  completed_at : Nat
deriving DecidableEq, Repr

/-- `CommunityPost` pydantic model / stored post document. -/
structure CommunityPost where
  id : String
  author_id : String
  author_name : String
  title : String
  content : String
  category : String
  created_at : Nat
  likes : Nat := 0
  replies : List String := []
deriving DecidableEq, Repr

/-- The document database: one list per collection used by the handlers
under verification. -/
structure DBState where
  users : List UserDoc := []
  teachers : List Teacher := []
  courses : List Course := []
  progress : List Progress := []
  quizzes : List Quiz := []
  quiz_submissions : List QuizSubmission := []
  community_posts : List CommunityPost := []
deriving DecidableEq, Repr

/-- MongoDB `update_one`: apply `f` to the first element satisfying `p`,
leave everything else (and a list with no match) unchanged. -/
def updateFirst (p : α → Bool) (f : α → α) : List α → List α
  | [] => []
  | x :: xs => if p x then f x :: xs else x :: updateFirst p f xs

/-- MongoDB `$addToSet`: append the value unless it is already present. -/
def addToSet (x : String) (xs : List String) : List String :=
  if x ∈ xs then xs else xs ++ [x]

/-- Model of `pwd_context.hash` (bcrypt, an external collaborator that is
out of scope per the spec); injective tagging stands in for the digest. -/
def get_password_hash (password : String) : String :=
  "bcrypt$" ++ password

/-- Payload of a signed access token: subject id and expiry. -/
structure AccessToken where
  sub : String
  exp : Nat
deriving DecidableEq, Repr

/-- `create_access_token` with the default 15-minute expiry used by
`register` and `login`. -/
def create_access_token (sub : String) (now : Nat) : AccessToken :=
  { sub := sub, exp := now + 15 * 60 }

/-- `Token` response model of `register`/`login`. -/
structure TokenOut where
  access_token : AccessToken
  token_type : String := "bearer"
  user : UserResponse
deriving DecidableEq, Repr

/-- Public view `UserResponse(**user_doc)` of a stored user document. -/
def userResponseOf (u : UserDoc) : UserResponse :=
  { id := u.id, email := u.email, full_name := u.full_name, role := u.role,
    profile_image := u.profile_image, bio := u.bio }

/-- `generate_quiz_questions`: the mock generator returns the same fixed
two-question set regardless of its inputs; the two fresh UUIDs that pydantic
generates for the question ids are passed in explicitly. -/
def generate_quiz_questions (_course_id _topic : String) (qid1 qid2 : String) :
    List QuizQuestion :=
  [{ id := qid1,
     question := "What is the main purpose of object-oriented programming?",
     options := ["To make code run faster",
                 "To organize code into reusable objects",
                 "To use less memory",
                 "To write shorter programs"],
     correct_answer := 1,
     explanation := some "OOP helps organize code into reusable, maintainable objects." },
   { id := qid2,
     question := "Which principle of OOP allows hiding internal implementation?",
     options := ["Inheritance", "Polymorphism", "Encapsulation", "Abstraction"],
     correct_answer := 2,
     explanation := some "Encapsulation hides the internal state and implementation details." }]

/-- `POST /api/auth/register`.  The two fresh UUIDs (user id, and the
teacher-profile id used only when the role is teacher) and the current time
are explicit arguments. -/
def register (data : UserCreate) (db : DBState) (userId teacherId : String) (now : Nat) :
    Except HErr TokenOut × DBState :=
  match db.users.find? (fun u => u.email = data.email) with
  | some _ => (.error (.conflict "Email already registered"), db)
  | none =>
    let hashed := get_password_hash data.password
    let userDoc : UserDoc :=
      { id := userId, email := data.email, full_name := data.full_name,
        role := data.role, created_at := now, hashed_password := hashed }
    let db1 := { db with users := db.users ++ [userDoc] }
    let db2 :=
      if data.role = "teacher" then
        { db1 with teachers := db1.teachers ++
            [{ id := teacherId, user_id := userId, full_name := data.full_name,
               email := data.email, subjects := [], experience_years := 0 }] }
      else db1
    (.ok { access_token := create_access_token userId now,
           user := { id := userId, email := data.email, full_name := data.full_name,
                     role := data.role } },
     db2)

/-- Outcome of `jwt.decode` on the presented bearer token: a decoded payload
(whose `sub` claim may be absent), an `ExpiredSignatureError`, or a
`DecodeError` (bad signature / undecodable token). -/
inductive DecodeOutcome where
  | decoded (sub : Option String)
  | expired
  | malformed
deriving DecidableEq, Repr

/-- Exceptions that can escape the `try` block of `get_current_user`: the
two PyJWT exception kinds that `jwt.decode` raises here, or an
`HTTPException` raised by the body itself. -/
inductive TryExc where
  | jwtDecodeError
  | jwtExpiredSignatureError
  | httpException (e : HErr)
deriving DecidableEq, Repr

/-- The exception-class attributes the `jwt` (PyJWT) module actually
exposes.  It has `PyJWTError`, but no attribute named `PyJSONError` — the
name the source's `except` clause looks up. -/
def jwtModuleExcAttrs : List String :=
  ["PyJWTError", "InvalidTokenError", "DecodeError", "InvalidSignatureError",
   "ExpiredSignatureError", "InvalidAudienceError", "InvalidIssuerError",
   "InvalidIssuedAtError", "ImmatureSignatureError", "InvalidKeyError",
   "InvalidAlgorithmError", "MissingRequiredClaimError"]

/-- Body of the `try` block of `get_current_user`: decode the token, read
`sub`, look the user up, raising `HTTPException(401)` on a missing `sub` or
unknown user. -/
def get_current_user_try (decoded : DecodeOutcome) (users : List UserDoc) :
    Except TryExc UserResponse :=
  match decoded with
  | .malformed => .error .jwtDecodeError
  | .expired => .error .jwtExpiredSignatureError
  | .decoded none => .error (.httpException (.unauthenticated "Invalid token"))
  | .decoded (some user_id) =>
    match users.find? (fun u => u.id = user_id) with
    | none => .error (.httpException (.unauthenticated "User not found"))
    | some u => .ok (userResponseOf u)

/-- `get_current_user`: runs the `try` body, then the
`except jwt.PyJSONError` clause.  Matching an escaping exception against
that clause first evaluates the attribute `jwt.PyJSONError`; since the jwt
module has no such attribute, that lookup itself raises `AttributeError`,
which replaces whatever exception was in flight.  Had the attribute
existed (the clause the source plainly meant, `jwt.PyJWTError`), PyJWT
errors would be turned into 401 and `HTTPException`s would propagate — that
intended handler is kept in the (dead) positive branch. -/
def get_current_user (decoded : DecodeOutcome) (users : List UserDoc) :
    Except HErr UserResponse :=
  match get_current_user_try decoded users with
  | .ok u => .ok u
  | .error e =>
    if "PyJSONError" ∈ jwtModuleExcAttrs then
      match e with
      | .jwtDecodeError => .error (.unauthenticated "Invalid token")
      | .jwtExpiredSignatureError => .error (.unauthenticated "Invalid token")
      | .httpException h => .error h
    else
      .error (.attributeError "module jwt has no attribute PyJSONError")

/-- Sort key relation for `.sort(created_at, -1)`: descending creation
time. -/
def postLater (p q : CommunityPost) : Prop :=
  q.created_at ≤ p.created_at

instance : DecidableRel postLater :=
  fun p q => inferInstanceAs (Decidable (q.created_at ≤ p.created_at))

instance : IsTotal CommunityPost postLater :=
  ⟨fun a b => Nat.le_total b.created_at a.created_at⟩

instance : IsTrans CommunityPost postLater :=
  ⟨fun _ _ _ hab hbc => Nat.le_trans hbc hab⟩

/-- MongoDB `.sort(created_at, -1)` on the posts collection. -/
def sortPostsDesc (l : List CommunityPost) : List CommunityPost :=
  l.insertionSort postLater

/-- Response of `GET /api/dashboard/student/id`.  The `learning_path` and
`ai_insights` components of the source response are input-independent
constants produced by the mock generators and carry no database data, so
the record keeps the three data-bearing components. -/
structure StudentDashboard where
  enrolled_courses : List Course
  progress : List Progress
  recent_posts : List CommunityPost
deriving DecidableEq, Repr

/-- `GET /api/dashboard/student/id`: courses whose `enrolled_students`
contains the student (`to_list(10)`), the student's progress records
(`to_list(10)`), and the posts sorted by creation time descending,
`limit(5)`. -/
def get_student_dashboard (student_id : String) (db : DBState) : StudentDashboard :=
  { enrolled_courses :=
      (db.courses.filter (fun c => student_id ∈ c.enrolled_students)).take 10,
    progress := (db.progress.filter (fun p => p.student_id = student_id)).take 10,
    recent_posts := (sortPostsDesc db.community_posts).take 5 }

/-- Python truthiness of an `Optional[str]` query parameter: `None` and the
empty string are falsy. -/
def pyTruthy : Option String → Bool
  | none => false
  | some s => s ≠ ""

/-- The filter document `get_courses` builds: an equality constraint on
`subject` (resp. `difficulty_level`) is added only when the parameter is
truthy. -/
def matchesCourseFilter (subject difficulty : Option String) (c : Course) : Bool :=
  (if pyTruthy subject then c.subject = subject.getD "" else true) &&
  (if pyTruthy difficulty then c.difficulty_level = difficulty.getD "" else true)

/-- `GET /api/courses?subject=&difficulty=`: filtered find, `to_list(50)`. -/
def get_courses (subject difficulty : Option String) (db : DBState) : List Course :=
  (db.courses.filter (matchesCourseFilter subject difficulty)).take 50

/-- The update document of the enrollment `update_one`:
`$addToSet enrolled_students current_user.id`. -/
def enrollUpdate (uid : String) (c : Course) : Course :=
  { c with enrolled_students := addToSet uid c.enrolled_students }

/-- `POST /api/courses/course_id/enroll`: role gate, `$addToSet` on the
course's `enrolled_students`, then an unconditional `Progress` insert
guarded only by the course lookup (no existence check on a prior progress
record).  The fresh progress-record UUID and the current time are explicit
arguments. -/
def enroll_in_course (course_id : String) (current_user : UserResponse) (db : DBState)
    (progressId : String) (now : Nat) : Except HErr String × DBState :=
  if current_user.role ≠ "student" then
    (.error (.forbidden "Only students can enroll in courses"), db)
  else
    let courses1 :=
      updateFirst (fun c => c.id = course_id) (enrollUpdate current_user.id) db.courses
    let db1 := { db with courses := courses1 }
    match db1.courses.find? (fun c => c.id = course_id) with
    | some course =>
      let prog : Progress :=
        { id := progressId, student_id := current_user.id, course_id := course_id,
          course_title := course.title, last_accessed := now }
      (.ok "Successfully enrolled in course",
       { db1 with progress := db1.progress ++ [prog] })
    | none => (.ok "Successfully enrolled in course", db1)

/-- The `$set` document of `update_teacher_profile`: `profile_data.dict()`
contains every `TeacherCreate` field (omitted optional fields as `None`),
so all four fields are written; the remaining `Teacher` fields are not in
the document and stay as stored. -/
def applyProfileSet (data : TeacherCreate) (t : Teacher) : Teacher :=
  { t with subjects := data.subjects, experience_years := data.experience_years,
           bio := data.bio, hourly_rate := data.hourly_rate }

/-- `PUT /api/teachers/profile`: role gate, then `update_one` keyed by the
acting user's id. -/
def update_teacher_profile (profile_data : TeacherCreate) (current_user : UserResponse)
    (db : DBState) : Except HErr String × DBState :=
  if current_user.role ≠ "teacher" then
    (.error (.forbidden "Only teachers can update profile"), db)
  else
    let teachers1 :=
      updateFirst (fun t => t.user_id = current_user.id)
        (applyProfileSet profile_data) db.teachers
    (.ok "Profile updated successfully", { db with teachers := teachers1 })

/-- The `stats` object of `GET /api/progress/student_id`. -/
structure ProgressStats where
  total_courses : Nat
  average_completion : ℚ
  total_time_hours : ℚ
deriving DecidableEq, Repr

/-- Response of `GET /api/progress/student_id` (`ai_analysis` is an
input-independent mock constant and carries no database data). -/
structure ProgressResponse where
  courses : List Progress
  stats : ProgressStats
deriving DecidableEq, Repr

/-- `GET /api/progress/student_id`: the student's progress documents
(`to_list(50)`), then `total = len`, `avg = sum / max(total, 1)`,
`time = sum`. -/
def get_student_progress (student_id : String) (db : DBState) : ProgressResponse :=
  let progress_docs := (db.progress.filter (fun p => p.student_id = student_id)).take 50
  let total_courses := progress_docs.length
  let avg_completion : ℚ :=
    (progress_docs.map (fun p => p.completion_percentage)).sum /
      ((max total_courses 1 : Nat) : ℚ)
  let total_time : ℚ := (progress_docs.map (fun p => p.time_spent_hours)).sum
  { courses := progress_docs,
    stats := { total_courses := total_courses, average_completion := avg_completion,
               total_time_hours := total_time } }

/-- `GET /api/quiz/course_id`.  When a stored quiz document (a dict) is
found, `Quiz(**quiz)` rebuilds and returns it.  When none is found, the
handler builds a pydantic `Quiz` model, persists `quiz.dict()`, and then
the shared `return Quiz(**quiz)` line unpacks the pydantic model instance
itself — a `Quiz` is not a mapping, so the `**` unpacking raises
`TypeError` (HTTP 500) after the insert; the new quiz is never returned by
the call that created it.  The fresh UUIDs (quiz id and the two question
ids) and the current time are explicit arguments. -/
def get_course_quiz (course_id : String) (db : DBState) (quizId qid1 qid2 : String)
    (now : Nat) : Except HErr Quiz × DBState :=
  match db.quizzes.find? (fun q => q.course_id = course_id) with
  | some quiz => (.ok quiz, db)
  | none =>
    let quiz : Quiz :=
      { id := quizId, course_id := course_id, title := "Course Assessment",
        questions := generate_quiz_questions course_id "General" qid1 qid2,
        created_at := now }
    (.error (.typeError "argument after ** must be a mapping, not Quiz"),
     { db with quizzes := db.quizzes ++ [quiz] })

/-- The scoring loop of `submit_quiz`: `for i, answer in enumerate(answers)`
counts the indices `i` that are in range of the question list and where the
answer equals that question's `correct_answer`; `zip` truncates to exactly
the indices in range of both lists. -/
def countCorrect (questions : List QuizQuestion) (answers : List Int) : Nat :=
  (answers.zip questions).countP (fun x => x.1 = x.2.correct_answer)

/-- Response body of `POST /api/quiz/submit`. -/
structure SubmitResult where
  score : ℚ
  correct_answers : Nat
  total_questions : Nat
  percentage : ℚ
deriving DecidableEq, Repr

/-- `POST /api/quiz/submit`: resolve the quiz (404 when absent), count the
correct answers, compute `score = (correct / total) * 100` — a Python `/`
that raises `ZeroDivisionError` when the stored quiz has no questions —
then persist the submission with the server-computed score and the acting
user's id. -/
def submit_quiz (submission : QuizSubmission) (current_user : UserResponse)
    (db : DBState) : Except HErr SubmitResult × DBState :=
  match db.quizzes.find? (fun q => q.id = submission.quiz_id) with
  | none => (.error (.notFound "Quiz not found"), db)
  | some quiz =>
    let total_questions := quiz.questions.length
    let correct_answers := countCorrect quiz.questions submission.answers
    if total_questions = 0 then
      (.error .zeroDivisionError, db)
    else
      let score : ℚ := ((correct_answers : ℚ) / (total_questions : ℚ)) * 100
      let stored : QuizSubmission :=
        { submission with score := score, student_id := current_user.id }
      (.ok { score := score, correct_answers := correct_answers,
             total_questions := total_questions, percentage := score },
       { db with quiz_submissions := db.quiz_submissions ++ [stored] })

/-- Score component of a `submit_quiz` outcome, when it succeeded. -/
def scoreOf (out : Except HErr SubmitResult × DBState) : Option ℚ :=
  match out.1 with
  | .ok r => some r.score
  | .error _ => none

/-! Concrete fixtures used by witnesses and counterexamples. -/

/-- The quiz `GET /api/quiz/course_1` persists on first access: the two mock
questions have correct-answer indices 1 and 2. -/
def sampleQuiz : Quiz :=
  { id := "quiz-1", course_id := "course_1", title := "Course Assessment",
    questions := generate_quiz_questions "course_1" "General" "q1" "q2",
    created_at := 0 }

/-- Database holding exactly `sampleQuiz`. -/
def sampleDB : DBState := { quizzes := [sampleQuiz] }

/-- An authenticated student. -/
def sampleUser : UserResponse :=
  { id := "student_1", email := "alex@student.com", full_name := "Alex Johnson",
    role := "student" }

/-- A submission against `sampleQuiz` with the given answer list. -/
def mkSubmission (answers : List Int) : QuizSubmission :=
  { quiz_id := "quiz-1", student_id := "student_1", answers := answers,
    score := 0, completed_at := 0 }

/-! Helper lemmas about the embedded database operations. -/

theorem updateFirst_eq_of_forall_not {p : α → Bool} {f : α → α} :
    ∀ {l : List α}, (∀ x ∈ l, ¬ p x) → updateFirst p f l = l
  | [], _ => rfl
  | x :: xs, h => by
    have hx : ¬ p x := h x (List.mem_cons_self x xs)
    simp only [updateFirst, if_neg hx]
    exact congrArg (x :: ·) (updateFirst_eq_of_forall_not fun y hy => h y (List.mem_cons_of_mem x hy))

theorem find?_updateFirst (p : α → Bool) (f : α → α) (hf : ∀ x, p (f x) = p x) :
    ∀ l : List α, (updateFirst p f l).find? p = (l.find? p).map f
  | [] => rfl
  | x :: xs => by
    by_cases hx : p x
    · simp [updateFirst, hx, List.find?_cons_of_pos, hf]
    · simp only [updateFirst, if_neg hx]
      rw [List.find?_cons_of_neg _ hx, List.find?_cons_of_neg _ hx]
      exact find?_updateFirst p f hf xs

theorem countCorrect_eq_countP_range :
    ∀ (qs : List QuizQuestion) (as : List Int),
      countCorrect qs as =
        (List.range (min as.length qs.length)).countP
          (fun i => as[i]? == (qs[i]?).map QuizQuestion.correct_answer)
  | _, [] => by simp [countCorrect]
  | [], _ :: _ => by simp [countCorrect]
  | q :: qs, a :: as => by
    have ih := countCorrect_eq_countP_range qs as
    simp only [countCorrect, List.zip_cons_cons, List.countP_cons] at ih ⊢
    rw [List.length_cons, List.length_cons, Nat.succ_min_succ, List.range_succ_eq_map,
      List.countP_cons, List.countP_map]
    simp only [List.getElem?_cons_zero, List.getElem?_cons_succ, Function.comp,
      Option.map_some', Option.some_beq_some] at *
    rw [ih]
    simp only [Nat.add_comm, beq_iff_eq]
    congr 1
    · simp
    · exact List.countP_congr fun i _ => by
        simp [Function.comp, List.getElem?_cons_succ]

/-! More fixtures. -/

/-- A stored quiz whose question list is empty. -/
def emptyQuiz : Quiz :=
  { id := "quiz-empty", course_id := "course_9", title := "Course Assessment",
    questions := [], created_at := 0 }

/-- Database holding exactly `emptyQuiz`. -/
def emptyQuizDB : DBState := { quizzes := [emptyQuiz] }

/-- A submission referencing `emptyQuiz`. -/
def emptySubmission : QuizSubmission :=
  { quiz_id := "quiz-empty", student_id := "student_1", answers := [],
    score := 0, completed_at := 0 }

/-- A stored user document. -/
def sampleUserDoc : UserDoc :=
  { id := "u1", email := "emma@student.com", full_name := "Emma Watson", role := "student",
    created_at := 0, hashed_password := get_password_hash "SecurePass123" }

/-- Users table holding exactly `sampleUserDoc`. -/
def authUsers : List UserDoc := [sampleUserDoc]

/-- Database whose users table is `authUsers`. -/
def regDB : DBState := { users := [sampleUserDoc] }

/-- A registration request reusing the email of `sampleUserDoc`. -/
def regDataDup : UserCreate :=
  { email := "emma@student.com", password := "OtherPass", full_name := "Emma Clone",
    role := "student" }

/-! Claim theorems. -/

/-- C1: for every quiz with a non-empty question list and every submitted
answer list, `submit_quiz` computes the score as the number of positions
that are in range of both the answer list and the question list and where
the answer equals that question's `correct_answer`, divided by the total
question count, times 100; in particular, for the 2-question quiz with
correct-answer indices `[1, 2]`, answers `[1, 2]` score 100, answers
`[0, 0]` score 0, and the short answer list `[1]` scores 50. -/
theorem submit_quiz_score_correct
    (submission : QuizSubmission) (user : UserResponse) (db : DBState) (quiz : Quiz)
    (hfind : db.quizzes.find? (fun q => q.id = submission.quiz_id) = some quiz)
    (hne : quiz.questions ≠ []) :
    (∃ r, (submit_quiz submission user db).1 = .ok r ∧
        r.score =
          (((List.range (min submission.answers.length quiz.questions.length)).countP
              (fun i => submission.answers[i]? ==
                (quiz.questions[i]?).map QuizQuestion.correct_answer) : ℚ) /
            (quiz.questions.length : ℚ)) * 100) ∧
    scoreOf (submit_quiz (mkSubmission [1, 2]) sampleUser sampleDB) = some 100 ∧
    scoreOf (submit_quiz (mkSubmission [0, 0]) sampleUser sampleDB) = some 0 ∧
    scoreOf (submit_quiz (mkSubmission [1]) sampleUser sampleDB) = some 50 := by
  refine ⟨?_, ?_, ?_, ?_⟩
  · have hlen : quiz.questions.length ≠ 0 := by simpa using hne
    refine ⟨{ score := (countCorrect quiz.questions submission.answers : ℚ) / (quiz.questions.length : ℚ) * 100,
              correct_answers := countCorrect quiz.questions submission.answers,
              total_questions := quiz.questions.length,
              percentage := (countCorrect quiz.questions submission.answers : ℚ) / (quiz.questions.length : ℚ) * 100 },
      ?_, ?_⟩
    · simp [submit_quiz, hfind, hlen]
    · simp [countCorrect_eq_countP_range, div_mul_eq_mul_div]
  · simp [scoreOf, submit_quiz, mkSubmission, sampleUser, sampleDB, sampleQuiz,
      generate_quiz_questions, countCorrect]
  · simp [scoreOf, submit_quiz, mkSubmission, sampleUser, sampleDB, sampleQuiz,
      generate_quiz_questions, countCorrect]
  · simp [scoreOf, submit_quiz, mkSubmission, sampleUser, sampleDB, sampleQuiz,
      generate_quiz_questions, countCorrect]
    norm_num

/-- Witness for C1 at the concrete fixture quiz. -/
theorem submit_quiz_score_correct_witness :
    scoreOf (submit_quiz (mkSubmission [1, 2]) sampleUser sampleDB) = some 100 :=
  (submit_quiz_score_correct (mkSubmission [1, 2]) sampleUser sampleDB sampleQuiz
    (by decide) (by decide)).2.1

/-- C10: `submit_quiz` divides by the quiz's question count with no zero
guard: a stored quiz with an empty question list makes the handler fail
with an uncaught `ZeroDivisionError` (HTTP 500) instead of returning a
result, and the error branch is unreachable exactly when the referenced
quiz has at least one question. -/
theorem submit_quiz_zero_division_unguarded
    (submission : QuizSubmission) (user : UserResponse) (db : DBState) (quiz : Quiz)
    (hfind : db.quizzes.find? (fun q => q.id = submission.quiz_id) = some quiz) :
    (submit_quiz emptySubmission sampleUser emptyQuizDB = (.error .zeroDivisionError, emptyQuizDB) ∧
      HErr.zeroDivisionError.status = 500) ∧
    (quiz.questions = [] → (submit_quiz submission user db).1 = .error .zeroDivisionError) ∧
    (quiz.questions ≠ [] → ∃ r, (submit_quiz submission user db).1 = .ok r) := by
  refine ⟨⟨rfl, rfl⟩, ?_, ?_⟩
  · intro h
    simp [submit_quiz, hfind, h]
  · intro h
    have hlen : quiz.questions.length ≠ 0 := by simpa using h
    refine ⟨{ score := (countCorrect quiz.questions submission.answers : ℚ) / (quiz.questions.length : ℚ) * 100,
              correct_answers := countCorrect quiz.questions submission.answers,
              total_questions := quiz.questions.length,
              percentage := (countCorrect quiz.questions submission.answers : ℚ) / (quiz.questions.length : ℚ) * 100 },
      ?_⟩
    simp [submit_quiz, hfind, hlen]

/-- Witness for C10 at the concrete empty-question quiz. -/
theorem submit_quiz_zero_division_unguarded_witness :
    submit_quiz emptySubmission sampleUser emptyQuizDB = (.error .zeroDivisionError, emptyQuizDB) ∧
      HErr.zeroDivisionError.status = 500 :=
  (submit_quiz_zero_division_unguarded emptySubmission sampleUser emptyQuizDB emptyQuiz
    (by decide)).1

/-- C3 (code bug): because the `except` clause names `jwt.PyJSONError`, an
attribute the jwt module does not have, every failure path of
`get_current_user` — malformed token, expired token, missing `sub` claim,
unknown subject — ends in an `AttributeError`, i.e. HTTP 500, not the 401
the claim (and the handler's own `raise` statements) prescribe; only the
success path returns the user's record. -/
theorem get_current_user_typo_yields_500 :
    get_current_user .malformed authUsers = .error (.attributeError "module jwt has no attribute PyJSONError") ∧
    get_current_user .expired authUsers = .error (.attributeError "module jwt has no attribute PyJSONError") ∧
    get_current_user (.decoded none) authUsers = .error (.attributeError "module jwt has no attribute PyJSONError") ∧
    get_current_user (.decoded (some "ghost")) authUsers = .error (.attributeError "module jwt has no attribute PyJSONError") ∧
    (HErr.attributeError "module jwt has no attribute PyJSONError").status = 500 ∧
    (HErr.attributeError "module jwt has no attribute PyJSONError").status ≠ 401 ∧
    get_current_user (.decoded (some "u1")) authUsers = .ok (userResponseOf sampleUserDoc) :=
  ⟨rfl, rfl, rfl, rfl, rfl, by decide, rfl⟩

/-- C2: `register` fails with Conflict (HTTP 400) precisely when a user
with the requested email already exists, leaving the database unchanged;
otherwise it appends exactly one user document storing the password only
as a hash, additionally appends a Teacher profile with empty subjects
linked by `user_id` exactly when the role is teacher, and returns a token
together with the public user view (a shape with no password-hash field). -/
theorem register_unique_email
    (data : UserCreate) (db : DBState) (uid tid : String) (now : Nat) :
    ((∃ u ∈ db.users, u.email = data.email) →
        register data db uid tid now = (.error (.conflict "Email already registered"), db)) ∧
    (HErr.conflict "Email already registered").status = 400 ∧
    ((∀ u ∈ db.users, u.email ≠ data.email) →
        register data db uid tid now =
          (.ok { access_token := create_access_token uid now,
                 token_type := "bearer",
                 user := { id := uid, email := data.email, full_name := data.full_name, role := data.role, profile_image := none, bio := none } },
           { db with users := db.users ++ [{ id := uid, email := data.email, full_name := data.full_name, role := data.role, created_at := now, profile_image := none, bio := none, hashed_password := get_password_hash data.password }],
                     teachers := if data.role = "teacher" then db.teachers ++ [{ id := tid, user_id := uid, full_name := data.full_name, email := data.email, subjects := [], experience_years := 0, rating := 9 / 2, total_students := 0, bio := none, profile_image := none, hourly_rate := none }] else db.teachers })) ∧
    ((∃ e, (register data db uid tid now).1 = .error e) ↔ ∃ u ∈ db.users, u.email = data.email) := by
  have hconf : (∃ u ∈ db.users, u.email = data.email) →
      register data db uid tid now = (.error (.conflict "Email already registered"), db) := by
    rintro ⟨u, hu, he⟩
    have hsome : (db.users.find? (fun u => u.email = data.email)).isSome :=
      List.find?_isSome.mpr ⟨u, hu, by simpa using he⟩
    obtain ⟨u2, hfind⟩ := Option.isSome_iff_exists.mp hsome
    simp [register, hfind]
  have hok : (∀ u ∈ db.users, u.email ≠ data.email) →
      register data db uid tid now =
        (.ok { access_token := create_access_token uid now,
               token_type := "bearer",
               user := { id := uid, email := data.email, full_name := data.full_name, role := data.role, profile_image := none, bio := none } },
         { db with users := db.users ++ [{ id := uid, email := data.email, full_name := data.full_name, role := data.role, created_at := now, profile_image := none, bio := none, hashed_password := get_password_hash data.password }],
                   teachers := if data.role = "teacher" then db.teachers ++ [{ id := tid, user_id := uid, full_name := data.full_name, email := data.email, subjects := [], experience_years := 0, rating := 9 / 2, total_students := 0, bio := none, profile_image := none, hourly_rate := none }] else db.teachers }) := by
    intro h
    have hfind : db.users.find? (fun u => u.email = data.email) = none :=
      List.find?_eq_none.mpr (fun x hx => by simpa using h x hx)
    by_cases hr : data.role = "teacher" <;> simp [register, hfind, hr]
  refine ⟨hconf, rfl, hok, ?_, ?_⟩
  · rintro ⟨e, he⟩
    by_contra hno
    push_neg at hno
    rw [hok hno] at he
    simp at he
  · intro hex
    exact ⟨_, by rw [hconf hex]⟩

/-- Witness for C2: the duplicate-email request is rejected with Conflict
and leaves the database untouched. -/
theorem register_unique_email_witness :
    register regDataDup regDB "u2" "t2" 7 = (.error (.conflict "Email already registered"), regDB) :=
  (register_unique_email regDataDup regDB "u2" "t2" 7).1 ⟨sampleUserDoc, by decide, by decide⟩

/-- List lemma: adding the same element twice with `$addToSet` to a list
holding it at most once leaves exactly one occurrence. -/
theorem count_addToSet_twice (x : String) (l : List String) (h : l.count x ≤ 1) :
    ((addToSet x (addToSet x l)).count x) = 1 := by
  by_cases hm : x ∈ l
  · have h1 : 1 ≤ l.count x := List.one_le_count_iff.mpr hm
    have hc : l.count x = 1 := le_antisymm h h1
    simp [addToSet, hm, hc]
  · have h0 : l.count x = 0 := List.count_eq_zero.mpr hm
    have hm2 : x ∈ l ++ [x] := by simp
    simp [addToSet, hm, hm2, List.count_append, h0]

/-- One enrollment call on an existing course: set-add on the course,
one progress insert. -/
theorem enroll_step (course_id : String) (user : UserResponse) (db : DBState)
    (pid : String) (t : Nat) (c : Course)
    (hrole : user.role = "student")
    (hfind : db.courses.find? (fun x => x.id = course_id) = some c) :
    enroll_in_course course_id user db pid t =
      (.ok "Successfully enrolled in course",
       { db with courses := updateFirst (fun x => x.id = course_id) (enrollUpdate user.id) db.courses,
                 progress := db.progress ++ [{ id := pid, student_id := user.id, course_id := course_id, course_title := c.title, completion_percentage := 0, last_accessed := t, time_spent_hours := 0, quiz_scores := [] }] }) := by
  have hfind2 : (updateFirst (fun x => x.id = course_id) (enrollUpdate user.id) db.courses).find?
      (fun x => x.id = course_id) = some (enrollUpdate user.id c) := by
    have hf : ∀ x : Course, (fun x : Course => decide (x.id = course_id)) (enrollUpdate user.id x) = (fun x : Course => decide (x.id = course_id)) x := fun x => rfl
    rw [find?_updateFirst _ _ hf, hfind]
    rfl
  simp [enroll_in_course, hrole, hfind2, enrollUpdate]

/-- C4: `enroll_in_course` fails with Forbidden (403) unless the actor is a
student; on a missing course it writes nothing; enrolling twice in the
same existing course leaves the student id exactly once in
`enrolled_students` while appending one Progress record per call. -/
theorem enroll_in_course_spec
    (course_id : String) (user : UserResponse) (db : DBState)
    (pid1 pid2 : String) (t1 t2 : Nat) :
    (user.role ≠ "student" →
        enroll_in_course course_id user db pid1 t1 = (.error (.forbidden "Only students can enroll in courses"), db) ∧
        (HErr.forbidden "Only students can enroll in courses").status = 403) ∧
    (user.role = "student" →
      (db.courses.find? (fun x => x.id = course_id) = none →
          enroll_in_course course_id user db pid1 t1 = (.ok "Successfully enrolled in course", db)) ∧
      (∀ c, db.courses.find? (fun x => x.id = course_id) = some c →
          c.enrolled_students.count user.id ≤ 1 →
          (∃ c2, ((enroll_in_course course_id user (enroll_in_course course_id user db pid1 t1).2 pid2 t2).2).courses.find? (fun x => x.id = course_id) = some c2 ∧
              c2.enrolled_students.count user.id = 1) ∧
          ((enroll_in_course course_id user (enroll_in_course course_id user db pid1 t1).2 pid2 t2).2).progress =
            db.progress ++ [{ id := pid1, student_id := user.id, course_id := course_id, course_title := c.title, completion_percentage := 0, last_accessed := t1, time_spent_hours := 0, quiz_scores := [] },
                            { id := pid2, student_id := user.id, course_id := course_id, course_title := c.title, completion_percentage := 0, last_accessed := t2, time_spent_hours := 0, quiz_scores := [] }])) := by
  refine ⟨?_, ?_⟩
  · intro h
    exact ⟨by simp [enroll_in_course, h], rfl⟩
  · intro hrole
    refine ⟨?_, ?_⟩
    · intro hnone
      have hupd : updateFirst (fun x => x.id = course_id) (enrollUpdate user.id) db.courses = db.courses :=
        updateFirst_eq_of_forall_not (List.find?_eq_none.mp hnone)
      simp [enroll_in_course, hrole, hupd, hnone]
    · intro c hfind hcount
      rw [enroll_step course_id user db pid1 t1 c hrole hfind]
      have hfind1 : (updateFirst (fun x => x.id = course_id) (enrollUpdate user.id) db.courses).find?
          (fun x => x.id = course_id) = some (enrollUpdate user.id c) := by
        have hf : ∀ x : Course, (fun x : Course => decide (x.id = course_id)) (enrollUpdate user.id x) = (fun x : Course => decide (x.id = course_id)) x := fun x => rfl
        rw [find?_updateFirst _ _ hf, hfind]
        rfl
      rw [enroll_step course_id user _ pid2 t2 (enrollUpdate user.id c) hrole (by simpa using hfind1)]
      refine ⟨⟨enrollUpdate user.id (enrollUpdate user.id c), ?_, ?_⟩, ?_⟩
      · have hf : ∀ x : Course, (fun x : Course => decide (x.id = course_id)) (enrollUpdate user.id x) = (fun x : Course => decide (x.id = course_id)) x := fun x => rfl
        simp only
        rw [find?_updateFirst _ _ hf]
        simp [hfind1]
      · simpa [enrollUpdate] using count_addToSet_twice user.id c.enrolled_students hcount
      · simp [enrollUpdate]

/-- A course with no enrolled students. -/
def enrollCourse : Course :=
  { id := "course_1", title := "Introduction to Python Programming", description := "d",
    teacher_id := "teacher_1", teacher_name := "Dr. Sarah Chen", subject := "Programming",
    difficulty_level := "beginner", duration_hours := 40, created_at := 0 }

/-- Database holding exactly `enrollCourse`. -/
def enrollDB : DBState := { courses := [enrollCourse] }

/-- Witness for C4: double enrollment on the concrete course. -/
theorem enroll_in_course_spec_witness :
    (∃ c2, ((enroll_in_course "course_1" sampleUser (enroll_in_course "course_1" sampleUser enrollDB "p1" 1).2 "p2" 2).2).courses.find? (fun x => x.id = "course_1") = some c2 ∧
        c2.enrolled_students.count sampleUser.id = 1) ∧
    ((enroll_in_course "course_1" sampleUser (enroll_in_course "course_1" sampleUser enrollDB "p1" 1).2 "p2" 2).2).progress =
      enrollDB.progress ++ [{ id := "p1", student_id := sampleUser.id, course_id := "course_1", course_title := enrollCourse.title, completion_percentage := 0, last_accessed := 1, time_spent_hours := 0, quiz_scores := [] },
                            { id := "p2", student_id := sampleUser.id, course_id := "course_1", course_title := enrollCourse.title, completion_percentage := 0, last_accessed := 2, time_spent_hours := 0, quiz_scores := [] }] :=
  ((enroll_in_course_spec "course_1" sampleUser enrollDB "p1" "p2" 1 2).2 (by decide)).2
    enrollCourse (by rfl) (by decide)

/-- A stored teacher profile with a bio and an hourly rate. -/
def storedTeacher : Teacher :=
  { id := "tch1", user_id := "tu1", full_name := "Taylor Quinn", email := "taylor@novazone.edu",
    subjects := ["Math"], experience_years := 3, rating := 4, total_students := 7,
    bio := some "veteran", hourly_rate := some 50 }

/-- The user owning `storedTeacher`. -/
def teacherUser : UserResponse :=
  { id := "tu1", email := "taylor@novazone.edu", full_name := "Taylor Quinn", role := "teacher" }

/-- Database holding exactly `storedTeacher`. -/
def teacherDB : DBState := { teachers := [storedTeacher] }

/-- A profile-update request that omits `bio` and `hourly_rate`; pydantic
parses the omitted optional fields as `None`. -/
def profileReqNoBio : TeacherCreate :=
  { subjects := ["Math"], experience_years := 4 }

/-- C6 counterexample: a request omitting `bio` and `hourly_rate` does NOT
leave those fields unchanged — `$set profile_data.dict()` overwrites both
with null, because `dict()` is taken without excluding unset fields. -/
theorem update_teacher_profile_overwrites_omitted :
    ((update_teacher_profile profileReqNoBio teacherUser teacherDB).2.teachers.map Teacher.bio = [none]) ∧
    teacherDB.teachers.map Teacher.bio = [some "veteran"] ∧
    ((update_teacher_profile profileReqNoBio teacherUser teacherDB).2.teachers.map Teacher.bio ≠
      teacherDB.teachers.map Teacher.bio) ∧
    ((update_teacher_profile profileReqNoBio teacherUser teacherDB).2.teachers.map Teacher.hourly_rate = [none]) ∧
    teacherDB.teachers.map Teacher.hourly_rate = [some 50] := by
  refine ⟨rfl, rfl, ?_, rfl, rfl⟩
  intro h
  simp [update_teacher_profile, teacherUser, teacherDB, storedTeacher, profileReqNoBio,
    updateFirst, applyProfileSet] at h

/-- C6 amended: `update_teacher_profile` fails with Forbidden (403) unless
the actor is a teacher; otherwise it writes all four request-model fields
(subjects, experience_years, bio, hourly_rate — omitted optional fields
becoming null) to the first Teacher keyed by the actor's user_id, leaving
every other Teacher field and every other collection unchanged, and doing
nothing when no such Teacher exists. -/
theorem update_teacher_profile_amended
    (data : TeacherCreate) (user : UserResponse) (db : DBState) :
    (user.role ≠ "teacher" →
        update_teacher_profile data user db = (.error (.forbidden "Only teachers can update profile"), db) ∧
        (HErr.forbidden "Only teachers can update profile").status = 403) ∧
    (user.role = "teacher" →
      (update_teacher_profile data user db).1 = .ok "Profile updated successfully" ∧
      (update_teacher_profile data user db).2.users = db.users ∧
      (update_teacher_profile data user db).2.courses = db.courses ∧
      (update_teacher_profile data user db).2.progress = db.progress ∧
      (db.teachers.find? (fun t => t.user_id = user.id) = none →
          (update_teacher_profile data user db).2 = db) ∧
      (∀ t, db.teachers.find? (fun t => t.user_id = user.id) = some t →
          ∃ t2, (update_teacher_profile data user db).2.teachers.find? (fun t => t.user_id = user.id) = some t2 ∧
            t2.subjects = data.subjects ∧
            t2.experience_years = data.experience_years ∧
            t2.bio = data.bio ∧
            t2.hourly_rate = data.hourly_rate ∧
            t2.id = t.id ∧ t2.user_id = t.user_id ∧ t2.full_name = t.full_name ∧
            t2.email = t.email ∧ t2.rating = t.rating ∧
            t2.total_students = t.total_students ∧ t2.profile_image = t.profile_image)) := by
  refine ⟨?_, ?_⟩
  · intro h
    exact ⟨by simp [update_teacher_profile, h], rfl⟩
  · intro hrole
    have hne : ¬ user.role ≠ "teacher" := by simp [hrole]
    refine ⟨by simp [update_teacher_profile, hne], by simp [update_teacher_profile, hne],
      by simp [update_teacher_profile, hne], by simp [update_teacher_profile, hne], ?_, ?_⟩
    · intro hnone
      have hupd : updateFirst (fun t => t.user_id = user.id) (applyProfileSet data) db.teachers = db.teachers :=
        updateFirst_eq_of_forall_not (List.find?_eq_none.mp hnone)
      simp [update_teacher_profile, hne, hupd]
    · intro t hfind
      have hf : ∀ x : Teacher, (fun x : Teacher => decide (x.user_id = user.id)) (applyProfileSet data x) = (fun x : Teacher => decide (x.user_id = user.id)) x := fun x => rfl
      refine ⟨applyProfileSet data t, ?_, rfl, rfl, rfl, rfl, rfl, rfl, rfl, rfl, rfl, rfl, rfl⟩
      have hred : update_teacher_profile data user db =
          (.ok "Profile updated successfully",
           { db with teachers := updateFirst (fun t => t.user_id = user.id) (applyProfileSet data) db.teachers }) := by
        simp [update_teacher_profile, hne]
      rw [hred]
      simp only
      rw [find?_updateFirst _ _ hf, hfind]
      rfl

/-- Witness for the amended C6 at the concrete teacher. -/
theorem update_teacher_profile_amended_witness :
    ∃ t2, (update_teacher_profile profileReqNoBio teacherUser teacherDB).2.teachers.find? (fun t => t.user_id = teacherUser.id) = some t2 ∧
      t2.subjects = profileReqNoBio.subjects ∧
      t2.experience_years = profileReqNoBio.experience_years ∧
      t2.bio = profileReqNoBio.bio ∧
      t2.hourly_rate = profileReqNoBio.hourly_rate ∧
      t2.id = storedTeacher.id ∧ t2.user_id = storedTeacher.user_id ∧
      t2.full_name = storedTeacher.full_name ∧ t2.email = storedTeacher.email ∧
      t2.rating = storedTeacher.rating ∧ t2.total_students = storedTeacher.total_students ∧
      t2.profile_image = storedTeacher.profile_image :=
  ((update_teacher_profile_amended profileReqNoBio teacherUser teacherDB).2 rfl).2.2.2.2.2
    storedTeacher (by rfl)

/-- C8 (code bug): `get_course_quiz` returns the stored quiz for the
course (inserting nothing) when one exists; but on a course with no prior
quiz the create branch persists the generated quiz and then fails with
`TypeError` (HTTP 500) — `Quiz(**quiz)` unpacks a pydantic model instance,
which is not a mapping — instead of returning the new quiz.  A second
sequential call finds the quiz persisted by the first call (carrying the
id the first call generated), returns it, and inserts nothing. -/
theorem get_course_quiz_create_branch_fails
    (course_id : String) (db : DBState) (f1 a1 b1 f2 a2 b2 : String) (n1 n2 : Nat) :
    (∀ q, db.quizzes.find? (fun x => x.course_id = course_id) = some q →
        get_course_quiz course_id db f1 a1 b1 n1 = (.ok q, db)) ∧
    (db.quizzes.find? (fun x => x.course_id = course_id) = none →
        (get_course_quiz course_id db f1 a1 b1 n1).1 =
          .error (.typeError "argument after ** must be a mapping, not Quiz") ∧
        (HErr.typeError "argument after ** must be a mapping, not Quiz").status = 500 ∧
        (∃ newq, (get_course_quiz course_id db f1 a1 b1 n1).2.quizzes = db.quizzes ++ [newq] ∧
            newq.id = f1 ∧ newq.course_id = course_id ∧
            (get_course_quiz course_id (get_course_quiz course_id db f1 a1 b1 n1).2 f2 a2 b2 n2).1 = .ok newq ∧
            (get_course_quiz course_id (get_course_quiz course_id db f1 a1 b1 n1).2 f2 a2 b2 n2).2 =
              (get_course_quiz course_id db f1 a1 b1 n1).2)) := by
  refine ⟨?_, ?_⟩
  · intro q hq
    simp [get_course_quiz, hq]
  · intro hnone
    have h1 : get_course_quiz course_id db f1 a1 b1 n1 =
        (.error (.typeError "argument after ** must be a mapping, not Quiz"),
         { db with quizzes := db.quizzes ++ [{ id := f1, course_id := course_id, title := "Course Assessment", questions := generate_quiz_questions course_id "General" a1 b1, created_at := n1 }] }) := by
      simp [get_course_quiz, hnone]
    have hfind2 : (db.quizzes ++ [({ id := f1, course_id := course_id, title := "Course Assessment", questions := generate_quiz_questions course_id "General" a1 b1, created_at := n1 } : Quiz)]).find? (fun x => x.course_id = course_id) =
        some { id := f1, course_id := course_id, title := "Course Assessment", questions := generate_quiz_questions course_id "General" a1 b1, created_at := n1 } := by
      rw [List.find?_append, hnone]
      simp
    rw [h1]
    refine ⟨rfl, rfl, { id := f1, course_id := course_id, title := "Course Assessment", questions := generate_quiz_questions course_id "General" a1 b1, created_at := n1 },
      rfl, rfl, rfl, ?_, ?_⟩ <;>
      simp [get_course_quiz, hfind2]

/-- An empty database: no quiz stored for any course. -/
def freshCourseDB : DBState := { }

/-- Witness for C8 at a course with no stored quiz: the create branch
ends in the 500 `TypeError` after persisting. -/
theorem get_course_quiz_create_branch_fails_witness :
    (get_course_quiz "course_7" freshCourseDB "qz1" "qa1" "qb1" 3).1 =
      .error (.typeError "argument after ** must be a mapping, not Quiz") :=
  ((get_course_quiz_create_branch_fails "course_7" freshCourseDB "qz1" "qa1" "qb1" "qz2" "qa2" "qb2" 3 4).2 (by decide)).1

def prog51 : Progress :=
  { id := "p", student_id := "s1", course_id := "c", course_title := "C", last_accessed := 0 }

/-- Database with 51 progress records for the same student. -/
def prog51DB : DBState := { progress := List.replicate 51 prog51 }

/-- C7 counterexample: with 51 stored progress records for the student,
`total_courses` is 50 — the read is capped by `to_list(50)` — not the
number of the student's progress records. -/
theorem get_student_progress_caps_at_50 :
    (get_student_progress "s1" prog51DB).stats.total_courses = 50 ∧
    (prog51DB.progress.filter (fun p => p.student_id = "s1")).length = 51 ∧
    (get_student_progress "s1" prog51DB).stats.total_courses ≠
      (prog51DB.progress.filter (fun p => p.student_id = "s1")).length := by
  have hfil : prog51DB.progress.filter (fun p => p.student_id = "s1") = List.replicate 51 prog51 := by
    simp [prog51DB, List.filter_replicate, prog51]
  refine ⟨?_, ?_, ?_⟩
  · simp [get_student_progress, hfil]
  · simp [hfil]
  · simp [get_student_progress, hfil]

/-- C7 amended: the stats are computed over the retrieved records — the
first 50 progress records with the given student id (all of them when at
most 50 exist): `total_courses` is their count, `total_time_hours` the sum
of their `time_spent_hours`, and `average_completion` their mean, equal to
0 when there are none (the division never divides by zero). -/
theorem get_student_progress_amended (student_id : String) (db : DBState) :
    (get_student_progress student_id db).stats.total_courses = (get_student_progress student_id db).courses.length ∧
    (get_student_progress student_id db).stats.total_time_hours = ((get_student_progress student_id db).courses.map (fun p => p.time_spent_hours)).sum ∧
    ((get_student_progress student_id db).courses = [] → (get_student_progress student_id db).stats.average_completion = 0) ∧
    ((get_student_progress student_id db).courses ≠ [] →
        (get_student_progress student_id db).stats.average_completion =
          ((get_student_progress student_id db).courses.map (fun p => p.completion_percentage)).sum /
            ((get_student_progress student_id db).courses.length : ℚ)) ∧
    (∀ p ∈ (get_student_progress student_id db).courses, p ∈ db.progress ∧ p.student_id = student_id) ∧
    ((db.progress.filter (fun p => p.student_id = student_id)).length ≤ 50 →
        (get_student_progress student_id db).courses = db.progress.filter (fun p => p.student_id = student_id)) ∧
    (get_student_progress student_id db).courses.length ≤ 50 := by
  refine ⟨rfl, rfl, ?_, ?_, ?_, ?_, ?_⟩
  · intro h
    simp only [get_student_progress] at h ⊢
    rw [h]
    norm_num
  · intro h
    simp only [get_student_progress] at h ⊢
    have hpos : 0 < ((db.progress.filter (fun p => p.student_id = student_id)).take 50).length :=
      List.length_pos.mpr h
    rw [Nat.max_eq_left hpos]
  · intro p hp
    have hp2 := List.mem_of_mem_take hp
    have := List.mem_filter.mp hp2
    exact ⟨this.1, by simpa using this.2⟩
  · intro h
    simpa [get_student_progress] using List.take_of_length_le h
  · exact List.length_take_le 50 _

/-- A single progress record. -/
def progOne : Progress :=
  { id := "p9", student_id := "s9", course_id := "c9", course_title := "C9",
    completion_percentage := 80, last_accessed := 0, time_spent_hours := 12 }

/-- Database holding exactly `progOne`. -/
def progOneDB : DBState := { progress := [progOne] }

/-- Witness for the amended C7: the mean is taken at a one-record state. -/
theorem get_student_progress_amended_witness :
    (get_student_progress "s9" progOneDB).stats.average_completion =
      (((get_student_progress "s9" progOneDB).courses.map (fun p => p.completion_percentage)).sum /
        ((get_student_progress "s9" progOneDB).courses.length : ℚ)) :=
  (get_student_progress_amended "s9" progOneDB).2.2.2.1 (by simp [get_student_progress, progOneDB, progOne])

/-- A Programming course. -/
def courseA : Course :=
  { id := "ca", title := "A", description := "dA", teacher_id := "t1", teacher_name := "T1",
    subject := "Programming", difficulty_level := "beginner", duration_hours := 1, created_at := 0 }

/-- An Art course. -/
def courseB : Course :=
  { id := "cb", title := "B", description := "dB", teacher_id := "t2", teacher_name := "T2",
    subject := "Art", difficulty_level := "advanced", duration_hours := 2, created_at := 0 }

/-- Database holding exactly `courseA`. -/
def oneCourseDB : DBState := { courses := [courseA] }

/-- Database with 50 copies of `courseA` followed by `courseB`: more than
one page of courses. -/
def overflowDB : DBState := { courses := List.replicate 50 courseA ++ [courseB] }

/-- C9 counterexample: (1) an empty-string subject filter is falsy in
Python, so it is ignored and non-matching courses are returned; (2) with
more than 50 stored courses the page cap breaks the subset property — a
filtered listing can contain a course absent from the unfiltered one. -/
theorem get_courses_filter_counterexample :
    (courseA ∈ get_courses (some "") none oneCourseDB ∧ courseA.subject ≠ "") ∧
    (courseB ∈ get_courses (some "Art") none overflowDB ∧
      courseB ∉ get_courses none none overflowDB) := by
  refine ⟨⟨?_, by decide⟩, ?_, ?_⟩
  · have h : get_courses (some "") none oneCourseDB = [courseA] := rfl
    rw [h]
    exact List.mem_cons_self _ _
  · have h : get_courses (some "Art") none overflowDB = [courseB] := rfl
    rw [h]
    exact List.mem_cons_self _ _
  · have h : get_courses none none overflowDB = List.replicate 50 courseA := rfl
    rw [h]
    simp only [List.mem_replicate]
    rintro ⟨-, h2⟩
    have := congrArg Course.id h2
    revert this
    decide

/-- C9 amended: a non-empty subject (resp. difficulty) filter returns the
first 50 courses whose subject (resp. difficulty_level) equals the filter;
an empty-string filter behaves as no filter; no filter returns the first
50 courses; and when at most 50 courses are stored the filtered listing is
exactly the matching subset of the unfiltered one. -/
theorem get_courses_amended (subject difficulty : Option String) (db : DBState) (s d : String) :
    get_courses none none db = db.courses.take 50 ∧
    (s ≠ "" →
        get_courses (some s) none db = (db.courses.filter (fun c => c.subject = s)).take 50 ∧
        (∀ c ∈ get_courses (some s) none db, c ∈ db.courses ∧ c.subject = s) ∧
        (db.courses.length ≤ 50 →
            get_courses (some s) none db = (get_courses none none db).filter (fun c => c.subject = s))) ∧
    (d ≠ "" →
        get_courses none (some d) db = (db.courses.filter (fun c => c.difficulty_level = d)).take 50 ∧
        (∀ c ∈ get_courses none (some d) db, c ∈ db.courses ∧ c.difficulty_level = d) ∧
        (db.courses.length ≤ 50 →
            get_courses none (some d) db = (get_courses none none db).filter (fun c => c.difficulty_level = d))) ∧
    get_courses (some "") (some "") db = get_courses none none db ∧
    (get_courses subject difficulty db).length ≤ 50 := by
  have h0 : ∀ l : List Course, List.filter (matchesCourseFilter none none) l = l :=
    fun l => List.filter_eq_self.mpr (fun a _ => rfl)
  have hall : get_courses none none db = db.courses.take 50 := by
    simp only [get_courses, h0]
  refine ⟨hall, ?_, ?_, ?_, ?_⟩
  · intro hs
    have hf : get_courses (some s) none db = (db.courses.filter (fun c => c.subject = s)).take 50 := by
      have hcongr : List.filter (matchesCourseFilter (some s) none) db.courses =
          List.filter (fun c => decide (c.subject = s)) db.courses :=
        List.filter_congr (fun c _ => by simp [matchesCourseFilter, pyTruthy, hs])
      simp only [get_courses]
      rw [hcongr]
    refine ⟨hf, ?_, ?_⟩
    · intro c hc
      rw [hf] at hc
      have := List.mem_filter.mp (List.mem_of_mem_take hc)
      exact ⟨this.1, by simpa using this.2⟩
    · intro hlen
      rw [hf, hall, List.take_of_length_le hlen,
        List.take_of_length_le (le_trans (List.length_filter_le _ _) hlen)]
  · intro hd
    have hf : get_courses none (some d) db = (db.courses.filter (fun c => c.difficulty_level = d)).take 50 := by
      have hcongr : List.filter (matchesCourseFilter none (some d)) db.courses =
          List.filter (fun c => decide (c.difficulty_level = d)) db.courses :=
        List.filter_congr (fun c _ => by simp [matchesCourseFilter, pyTruthy, hd])
      simp only [get_courses]
      rw [hcongr]
    refine ⟨hf, ?_, ?_⟩
    · intro c hc
      rw [hf] at hc
      have := List.mem_filter.mp (List.mem_of_mem_take hc)
      exact ⟨this.1, by simpa using this.2⟩
    · intro hlen
      rw [hf, hall, List.take_of_length_le hlen,
        List.take_of_length_le (le_trans (List.length_filter_le _ _) hlen)]
  · have hcongr : List.filter (matchesCourseFilter (some "") (some "")) db.courses =
        List.filter (matchesCourseFilter none none) db.courses :=
      List.filter_congr (fun c _ => rfl)
    simp only [get_courses]
    rw [hcongr]
  · exact List.length_take_le 50 _

/-- Witness for the amended C9 on the one-course database. -/
theorem get_courses_amended_witness :
    get_courses (some "Programming") none oneCourseDB =
      (get_courses none none oneCourseDB).filter (fun c => c.subject = "Programming") :=
  (((get_courses_amended none none oneCourseDB "Programming" "x").2.1 (by decide)).2.2) (by decide)

/-- Course number `n`, all enrolling the same student sd. -/
def mkDashCourse (n : Nat) : Course :=
  { id := toString n, title := "C", description := "dc", teacher_id := "t", teacher_name := "T",
    subject := "S", difficulty_level := "beginner", duration_hours := 1, created_at := n,
    enrolled_students := ["sd"] }

/-- Progress record number `n` for student sd. -/
def mkDashProg (n : Nat) : Progress :=
  { id := toString n, student_id := "sd", course_id := "c", course_title := "C",
    last_accessed := n }

/-- Database with 11 distinct matching courses and 11 distinct progress
records for student sd — one more than the dashboard's read caps. -/
def dashElevenDB : DBState :=
  { courses := (List.range 11).map mkDashCourse,
    progress := (List.range 11).map mkDashProg }

/-- C5 counterexample: with 11 enrolled courses and 11 progress records,
the dashboard's `to_list(10)` reads drop the eleventh of each, so it does
not return all courses containing the student nor all of the student's
progress records. -/
theorem get_student_dashboard_caps :
    mkDashCourse 10 ∈ dashElevenDB.courses ∧
    "sd" ∈ (mkDashCourse 10).enrolled_students ∧
    mkDashCourse 10 ∉ (get_student_dashboard "sd" dashElevenDB).enrolled_courses ∧
    mkDashProg 10 ∈ dashElevenDB.progress ∧
    (mkDashProg 10).student_id = "sd" ∧
    mkDashProg 10 ∉ (get_student_dashboard "sd" dashElevenDB).progress := by
  refine ⟨List.mem_map.mpr ⟨10, by decide, rfl⟩, by decide, ?_, List.mem_map.mpr ⟨10, by decide, rfl⟩, rfl, ?_⟩
  · have h1 : (get_student_dashboard "sd" dashElevenDB).enrolled_courses =
        (List.range 10).map mkDashCourse := rfl
    rw [h1]
    intro hmem
    obtain ⟨a, ha, heq⟩ := List.mem_map.mp hmem
    have hca := congrArg Course.created_at heq
    simp [mkDashCourse] at hca
    have := List.mem_range.mp ha
    omega
  · have h2 : (get_student_dashboard "sd" dashElevenDB).progress =
        (List.range 10).map mkDashProg := rfl
    rw [h2]
    intro hmem
    obtain ⟨a, ha, heq⟩ := List.mem_map.mp hmem
    have hca := congrArg Progress.last_accessed heq
    simp [mkDashProg] at hca
    have := List.mem_range.mp ha
    omega

/-- C5 amended: the dashboard returns the first 10 courses whose
`enrolled_students` contains the student (all of them when at most 10
match), the first 10 progress records for the student (all when at most
10), and at most 5 community posts, sorted by creation time descending and
each at least as recent as every omitted post (exactly 5 when at least 5
exist); an empty state yields empty lists, not an error. -/
theorem get_student_dashboard_amended (student_id : String) (db : DBState) :
    (∀ c ∈ (get_student_dashboard student_id db).enrolled_courses,
        c ∈ db.courses ∧ student_id ∈ c.enrolled_students) ∧
    ((db.courses.filter (fun c => student_id ∈ c.enrolled_students)).length ≤ 10 →
        (get_student_dashboard student_id db).enrolled_courses =
          db.courses.filter (fun c => student_id ∈ c.enrolled_students)) ∧
    (get_student_dashboard student_id db).enrolled_courses.length ≤ 10 ∧
    (∀ p ∈ (get_student_dashboard student_id db).progress,
        p ∈ db.progress ∧ p.student_id = student_id) ∧
    ((db.progress.filter (fun p => p.student_id = student_id)).length ≤ 10 →
        (get_student_dashboard student_id db).progress =
          db.progress.filter (fun p => p.student_id = student_id)) ∧
    (get_student_dashboard student_id db).progress.length ≤ 10 ∧
    (get_student_dashboard student_id db).recent_posts.length ≤ 5 ∧
    (5 ≤ db.community_posts.length → (get_student_dashboard student_id db).recent_posts.length = 5) ∧
    List.Sorted postLater (get_student_dashboard student_id db).recent_posts ∧
    (∀ p ∈ (get_student_dashboard student_id db).recent_posts, p ∈ db.community_posts) ∧
    (∀ q ∈ db.community_posts, q ∉ (get_student_dashboard student_id db).recent_posts →
        ∀ p ∈ (get_student_dashboard student_id db).recent_posts, q.created_at ≤ p.created_at) ∧
    get_student_dashboard student_id ({} : DBState) =
      { enrolled_courses := [], progress := [], recent_posts := [] } := by
  have hperm : List.Perm (sortPostsDesc db.community_posts) db.community_posts :=
    List.perm_insertionSort postLater db.community_posts
  have hsorted : List.Sorted postLater (sortPostsDesc db.community_posts) :=
    List.sorted_insertionSort postLater db.community_posts
  refine ⟨?_, ?_, ?_, ?_, ?_, ?_, ?_, ?_, ?_, ?_, ?_, rfl⟩
  · intro c hc
    simp only [get_student_dashboard] at hc
    have := List.mem_filter.mp (List.mem_of_mem_take hc)
    exact ⟨this.1, by simpa using this.2⟩
  · intro h
    simp only [get_student_dashboard]
    exact List.take_of_length_le h
  · exact List.length_take_le 10 _
  · intro p hp
    simp only [get_student_dashboard] at hp
    have := List.mem_filter.mp (List.mem_of_mem_take hp)
    exact ⟨this.1, by simpa using this.2⟩
  · intro h
    simp only [get_student_dashboard]
    exact List.take_of_length_le h
  · exact List.length_take_le 10 _
  · exact List.length_take_le 5 _
  · intro h
    simp only [get_student_dashboard]
    rw [List.length_take, hperm.length_eq]
    exact Nat.min_eq_left h
  · exact List.Pairwise.sublist (List.take_sublist 5 _) hsorted
  · intro p hp
    simp only [get_student_dashboard] at hp
    exact hperm.mem_iff.mp (List.mem_of_mem_take hp)
  · intro q hq hqnot p hp
    simp only [get_student_dashboard] at hqnot hp
    have hqsort : q ∈ sortPostsDesc db.community_posts := hperm.mem_iff.mpr hq
    rw [← List.take_append_drop 5 (sortPostsDesc db.community_posts)] at hqsort
    have hqdrop : q ∈ (sortPostsDesc db.community_posts).drop 5 := by
      rcases List.mem_append.mp hqsort with h | h
      · exact absurd h hqnot
      · exact h
    have hpair : List.Pairwise postLater
        ((sortPostsDesc db.community_posts).take 5 ++ (sortPostsDesc db.community_posts).drop 5) := by
      rw [List.take_append_drop]
      exact hsorted
    exact (List.pairwise_append.mp hpair).2.2 p hp q hqdrop

/-- Witness for the amended C5: completeness below the cap at a concrete
state. -/
theorem get_student_dashboard_amended_witness :
    (get_student_dashboard "s1" oneCourseDB).enrolled_courses =
      oneCourseDB.courses.filter (fun c => "s1" ∈ c.enrolled_students) :=
  (get_student_dashboard_amended "s1" oneCourseDB).2.1 (by decide)

end NZ
